import Mathlib

/-
Shallow embedding of src/components/script/dom/websocket.rs (Servo's
client-side WebSocket DOM object): the connection state machine, the
validators inlined in `Constructor` and `Close`, the `Send` and `Close`
methods, and the two completion tasks (`ConnectionEstablishedTask`,
`CloseTask`).  Machine integers (`u16`) are modelled as `Nat`; the only
u16 value ever stored is a caller-supplied close code, and the code never
performs arithmetic on it, so no wraparound can occur.  The opaque network
sender handle `Sender<WebSocketStream>` is modelled as a `Nat` identifier:
the code never inspects it, it only stores it and calls `send_message` on
it (whose result is discarded).  Event dispatch is modelled by returning
the list of fired events; a fired event records the event name, its
bubbles flag (`EventBubbles::DoesNotBubble` = `false`) and its cancelable
flag (`EventCancelable::Cancelable` = `true`), plus, for a `CloseEvent`,
the `wasClean`/`code`/`reason` payload.
-/

namespace Servo

/-- The four-variant `WebSocketRequestState` enum (websocket.rs lines 41-47),
with its discriminants 0-3. -/
inductive WebSocketRequestState where
  | Connecting
  | Open
  | Closing
  | Closed
deriving DecidableEq

/-- The numeric discriminant of each state, exactly the values assigned in the
Rust enum (`Connecting = 0, Open = 1, Closing = 2, Closed = 3`); `ReadyState`
returns this value. -/
def WebSocketRequestState.toNat : WebSocketRequestState → Nat
  | .Connecting => 0
  | .Open => 1
  | .Closing => 2
  | .Closed => 3

/-- The three `dom::bindings::error::Error` variants this file uses:
`Error::Syntax`, `Error::InvalidAccess`, `Error::InvalidState`. -/
inductive Error where
  | Syntax
  | InvalidAccess
  | InvalidState
deriving DecidableEq

/-- A message handed to `send_message`: either `Message::Text(data)` from
`Send`, or `Message::Close(None)` from the `send_close` helper inside
`Close`. -/
inductive Message where
  | Text (data : String)
  | CloseFrame
deriving DecidableEq

/-- An event fired on the WebSocket's event target. `simple` is an
`Event::new` + `fire` (name, bubbles, cancelable); `closeEvent` is a
`CloseEvent::new` + `fire`, which additionally carries the
`wasClean`/`code`/`reason` payload.  `bubbles = true` stands for
`EventBubbles::Bubbles` and `cancelable = true` for
`EventCancelable::Cancelable`. -/
inductive FiredEvent where
  | simple (name : String) (bubbles : Bool) (cancelable : Bool)
  | closeEvent (name : String) (bubbles : Bool) (cancelable : Bool)
      (wasClean : Bool) (code : Nat) (reason : String)
deriving DecidableEq

/-- The mutable fields of the `WebSocket` struct (websocket.rs lines 51-64).
The `eventtarget`, `url`, `global` and `data` fields are omitted: the first
three are immutable external-collaborator handles and `data` is a dead field
(written by no code path modelled here).  `sender : Option Nat` is the
`RefCell<Option<Sender<WebSocketStream>>>` with the opaque sender handle
modelled as an identifier. -/
structure WebSocket where
  ready_state : WebSocketRequestState
  sender : Option Nat
  failed : Bool
  full : Bool
  clean_close : Bool
  code : Nat
  reason : String
deriving DecidableEq

/-- The field initialisation in `WebSocket::new_inherited` (lines 80-95):
`Connecting` state, no sender, `failed = false`, `full = false`,
`clean_close = true`, `code = 0`, empty reason. -/
def WebSocket.new_inherited : WebSocket :=
  { ready_state := WebSocketRequestState.Connecting
  , sender := none
  , failed := false
  , full := false
  , clean_close := true
  , code := 0
  , reason := "" }

/-- The subprotocol validation loop in `WebSocket::Constructor` (lines
117-131).  At iteration `i` the Rust code checks, in order: `protocol`
empty; `protocols[i+1..]` containing an exact (`==`, case-sensitive)
duplicate of `protocol`; `protocol` containing a char `c` with
`c < '\u{0021}' || c > '\u{007E}'` (a codepoint comparison, written here on
`Char.toNat`).  Each failing check returns `Err(Syntax)`. -/
def validateSubprotocols : List String → Except Error Unit
  | [] => Except.ok ()
  | protocol :: rest =>
    if protocol.isEmpty then Except.error Error.Syntax
    else if rest.any (fun p => p == protocol) then Except.error Error.Syntax
    else if protocol.data.any
        (fun c => decide (c.toNat < 0x21) || decide (0x7E < c.toNat)) then
      Except.error Error.Syntax
    else validateSubprotocols rest

/-- The close-code rejection test inlined in `Close` (lines 225-230): a
supplied code is rejected when `code != 1000 && (code < 3000 || code > 4999)`. -/
def closeCodeRejected (code : Option Nat) : Bool :=
  code.any fun c => c != 1000 && (decide (c < 3000) || decide (4999 < c))

/-- The close-reason rejection test inlined in `Close` (lines 231-235): a
supplied reason is rejected when its UTF-8 byte length
(`reason.0.as_bytes().len()`) exceeds 123. -/
def closeReasonRejected (reason : Option String) : Bool :=
  reason.any fun r => decide (123 < r.utf8ByteSize)

set_option linter.unusedVariables false in
/-- `WebSocketMethods::Send` (lines 186-210).  Returns `none` where the Rust
code panics: in the `Open` state it unwraps both `self.sender` (line 207)
and `data` (line 208), so a missing sender or a missing argument aborts.
Otherwise returns the `Fallible<()>` result, the (unchanged) websocket, and
the messages handed to `send_message`.  `txOk` says whether that
transmission would succeed; the Rust code discards the result
(`let _ = my_sender.send_message(...)`), so nothing depends on it. -/
def Send (txOk : Bool) (data : Option String) (ws : WebSocket) :
    Option (Except Error Unit × WebSocket × List Message) :=
  match ws.ready_state with
  | WebSocketRequestState.Connecting =>
      some (Except.error Error.InvalidState, ws, [])
  | WebSocketRequestState.Closing =>
      some (Except.ok (), ws, [])
  | WebSocketRequestState.Closed =>
      some (Except.ok (), ws, [])
  | WebSocketRequestState.Open =>
      match ws.sender, data with
      | some _, some d => some (Except.ok (), ws, [Message.Text d])
      | _, _ => none

/-- The `send_close` helper nested in `Close` (lines 214-222): set
`ready_state = Closing`; then, if a sender is present, best-effort send a
`Message::Close(None)` frame (the send result is discarded). -/
def send_close (ws : WebSocket) : WebSocket × List Message :=
  let ws := { ws with ready_state := WebSocketRequestState.Closing }
  match ws.sender with
  | some _ => (ws, [Message.CloseFrame])
  | none => (ws, [])

deriving instance DecidableEq for Except

/-- The outcome of a `Close` call: its `Fallible<()>` result, the websocket
after the call, and the close frames handed to `send_message`. -/
structure CloseResult where
  result : Except Error Unit
  ws : WebSocket
  sent : List Message
deriving DecidableEq

/-- `WebSocketMethods::Close` (lines 213-262).  First the two validations
(code range, then reason byte length), each returning early with no
mutation; then the state match: `Closing`/`Closed` do nothing; `Connecting`
sets `failed = true` and runs `send_close`; `Open` stores the supplied code
and reason, then runs `send_close`.  Always returns `Ok(())` past
validation. -/
def Close (code : Option Nat) (reason : Option String) (ws : WebSocket) :
    CloseResult :=
  if closeCodeRejected code then
    { result := Except.error Error.InvalidAccess, ws := ws, sent := [] }
  else if closeReasonRejected reason then
    { result := Except.error Error.Syntax, ws := ws, sent := [] }
  else
    match ws.ready_state with
    | WebSocketRequestState.Closing =>
        { result := Except.ok (), ws := ws, sent := [] }
    | WebSocketRequestState.Closed =>
        { result := Except.ok (), ws := ws, sent := [] }
    | WebSocketRequestState.Connecting =>
        let ws := { ws with failed := true }
        let r := send_close ws
        { result := Except.ok (), ws := r.1, sent := r.2 }
    | WebSocketRequestState.Open =>
        let ws := match code with
          | some c => { ws with code := c }
          | none => ws
        let ws := match reason with
          | some r => { ws with reason := r }
          | none => ws
        let r := send_close ws
        { result := Except.ok (), ws := r.1, sent := r.2 }

/-- `ConnectionEstablishedTask::handler` (lines 272-294): store the sender,
set `ready_state = Open`, fire an `open` event (does not bubble, not
cancelable). -/
def ConnectionEstablishedTask_handler (sender : Nat) (ws : WebSocket) :
    WebSocket × List FiredEvent :=
  let ws := { ws with sender := some sender
                    , ready_state := WebSocketRequestState.Open }
  (ws, [FiredEvent.simple "open" false false])

/-- `CloseTask::handler` (lines 300-334): set `ready_state = Closed`; if
`failed || full`, clear both flags, set `clean_close = false` and fire an
`error` event (does not bubble, cancelable); then always fire a `close`
event (does not bubble, not cancelable) carrying the current `clean_close`,
`code` and `reason` (read after the mutation above). -/
def CloseTask_handler (ws : WebSocket) : WebSocket × List FiredEvent :=
  let ws := { ws with ready_state := WebSocketRequestState.Closed }
  let r :=
    if ws.failed || ws.full then
      ({ ws with failed := false, full := false, clean_close := false },
       [FiredEvent.simple "error" false true])
    else (ws, ([] : List FiredEvent))
  let ws := r.1
  (ws, r.2 ++ [FiredEvent.closeEvent "close" false false
                 ws.clean_close ws.code ws.reason])

/-- An operation applied to the connection on the consumer thread: a `Send`
call (with its transmission-success oracle and optional data), a `Close`
call, the `ConnectionEstablishedTask`, or the `CloseTask`. -/
inductive Op where
  | send (txOk : Bool) (data : Option String)
  | close (code : Option Nat) (reason : Option String)
  | established (sender : Nat)
  | closeTask
deriving DecidableEq

/-- Whether an operation is the `ConnectionEstablishedTask`. -/
def Op.isEstablished : Op → Bool
  | .established _ => true
  | _ => false

/-- The state transition of one operation.  A `Send` that panics (returns
`none`) aborts before writing any field, so the websocket is left as it
was; in every non-panicking branch `Send` also leaves it unchanged. -/
def step (ws : WebSocket) : Op → WebSocket
  | .send txOk data =>
      match Send txOk data ws with
      | some (_, ws2, _) => ws2
      | none => ws
  | .close c r => (Close c r ws).ws
  | .established s => (ConnectionEstablishedTask_handler s ws).1
  | .closeTask => (CloseTask_handler ws).1

/-- How many `ConnectionEstablishedTask` runs a sequence of operations
contains.  The constructor's worker thread enqueues at most one completion
task per connection attempt, so real traces have at most one. -/
def countEstablished (ops : List Op) : Nat :=
  ops.countP Op.isEstablished

/-- Whether an operation executes the `Open`-state store of `Close` (lines
250-255): it is a `Close` call that passes both validations, runs while the
state is `Open`, and actually supplies a code or a reason. -/
def closeStores (ws : WebSocket) : Op → Bool
  | .close c r =>
      !closeCodeRejected c && !closeReasonRejected r &&
      (ws.ready_state == WebSocketRequestState.Open) && (c.isSome || r.isSome)
  | _ => false

/-- How many operations of a trace execute the `Open`-state store of
`Close`, starting from `ws`. -/
def storeCount (ws : WebSocket) : List Op → Nat
  | [] => 0
  | op :: rest =>
      (if closeStores ws op then 1 else 0) + storeCount (step ws op) rest

/-! Helper lemmas shared by several claim proofs. -/

lemma closeCodeRejected_false_iff (c : Nat) :
    closeCodeRejected (some c) = false ↔ (c = 1000 ∨ (3000 ≤ c ∧ c ≤ 4999)) := by
  simp only [closeCodeRejected, Option.any_some, Bool.and_eq_false_imp, bne_eq_false_iff_eq,
    Bool.or_eq_false_iff, decide_eq_false_iff_not, not_lt]
  constructor
  · intro h
    by_cases hc : c = 1000
    · exact Or.inl hc
    · rcases h (by simp [bne_iff_ne, hc]) with ⟨h1, h2⟩
      omega
  · intro h hb
    simp only [bne_iff_ne, ne_eq] at hb
    rcases h with h | h
    · exact absurd h hb
    · omega

lemma closeCodeRejected_true_iff (c : Nat) :
    closeCodeRejected (some c) = true ↔ ¬(c = 1000 ∨ (3000 ≤ c ∧ c ≤ 4999)) := by
  rw [← closeCodeRejected_false_iff]
  cases closeCodeRejected (some c) <;> simp

lemma closeReasonRejected_some_iff (r : String) :
    closeReasonRejected (some r) = true ↔ 123 < r.utf8ByteSize := by
  simp [closeReasonRejected]

lemma Close_ok_of_valid (c : Option Nat) (r : Option String) (ws : WebSocket)
    (hc : closeCodeRejected c = false) (hr : closeReasonRejected r = false) :
    (Close c r ws).result = Except.ok () := by
  obtain ⟨st, sd, f, fl, cc, cd, rs⟩ := ws
  cases st <;> simp [Close, hc, hr, send_close]

lemma Close_unchanged_of_rejected (c : Option Nat) (r : Option String)
    (ws : WebSocket)
    (h : closeCodeRejected c = true ∨ closeReasonRejected r = true) :
    (Close c r ws).ws = ws ∧ (Close c r ws).sent = [] := by
  by_cases hc : closeCodeRejected c = true
  · simp [Close, hc]
  · rcases h with h | h
    · exact absurd h hc
    · simp [Close, hc, h]

lemma Close_state_not_open (c : Option Nat) (r : Option String) (ws : WebSocket)
    (hc : closeCodeRejected c = false) (hr : closeReasonRejected r = false) :
    (Close c r ws).ws.ready_state ≠ WebSocketRequestState.Open := by
  obtain ⟨st, sd, f, fl, cc, cd, rs⟩ := ws
  cases st <;> cases sd <;> cases c <;> cases r <;>
    simp [Close, hc, hr, send_close]

/-! Claim theorems. -/

lemma validateSubprotocols_err_iff (ps : List String) :
    validateSubprotocols ps = Except.error Error.Syntax ↔
      (∃ p ∈ ps, p = "" ∨ ∃ ch ∈ p.data, ch.toNat < 0x21 ∨ 0x7E < ch.toNat) ∨
      ¬ ps.Nodup := by
  induction ps with
  | nil => simp [validateSubprotocols]
  | cons p rest ih =>
    simp only [validateSubprotocols, List.nodup_cons, List.mem_cons]
    split_ifs with he hd hb
    · exact iff_of_true rfl
        (Or.inl ⟨p, Or.inl rfl, Or.inl ((String.isEmpty_iff p).mp he)⟩)
    · refine iff_of_true rfl (Or.inr fun hn => hn.1 ?_)
      rcases List.any_eq_true.mp hd with ⟨q, hq, hqe⟩
      exact (beq_iff_eq.mp hqe) ▸ hq
    · refine iff_of_true rfl (Or.inl ⟨p, Or.inl rfl, Or.inr ?_⟩)
      rcases List.any_eq_true.mp hb with ⟨ch, hch, hche⟩
      rcases Bool.or_eq_true_iff.mp hche with h | h
      · exact ⟨ch, hch, Or.inl (of_decide_eq_true h)⟩
      · exact ⟨ch, hch, Or.inr (of_decide_eq_true h)⟩
    · rw [ih]
      have hne : ¬ p = "" := fun h => he (by subst h; decide)
      have hnd : p ∉ rest := fun h =>
        hd (List.any_eq_true.mpr ⟨p, h, beq_self_eq_true p⟩)
      have hnb : ¬ ∃ ch ∈ p.data, ch.toNat < 0x21 ∨ 0x7E < ch.toNat := by
        intro ⟨ch, hch, hlt⟩
        refine hb (List.any_eq_true.mpr ⟨ch, hch, ?_⟩)
        rcases hlt with h | h
        · exact Bool.or_eq_true_iff.mpr (Or.inl (decide_eq_true h))
        · exact Bool.or_eq_true_iff.mpr (Or.inr (decide_eq_true h))
      constructor
      · rintro (⟨q, hq, hP⟩ | hknot)
        · exact Or.inl ⟨q, Or.inr hq, hP⟩
        · exact Or.inr fun hn => hknot hn.2
      · rintro (⟨q, hq | hq, hP⟩ | hknot)
        · subst hq
          rcases hP with h | h
          · exact absurd h hne
          · exact absurd h hnb
        · exact Or.inl ⟨q, hq, hP⟩
        · exact Or.inr fun hn => hknot ⟨hnd, hn⟩

/-- C4: subprotocol validation fails with `SyntaxError` exactly when some
entry is empty, some entry holds a character outside `0x21`-`0x7E`
inclusive, or the list has a case-sensitive exact duplicate (equivalently,
it is not `Nodup`); in particular `["a", "A"]`, whose entries differ only in
letter case, passes. -/
theorem C4_subprotocol_validation (ps : List String) :
    (validateSubprotocols ps = Except.error Error.Syntax ↔
      (∃ p ∈ ps, p = "" ∨ ∃ ch ∈ p.data, ch.toNat < 0x21 ∨ 0x7E < ch.toNat) ∨
      ¬ ps.Nodup) ∧
    validateSubprotocols ["a", "A"] = Except.ok () :=
  ⟨validateSubprotocols_err_iff ps, by decide⟩

set_option linter.unusedVariables false in
/-- C5: a supplied close code passes `Close`'s validation (the call returns
`Ok`) exactly when it is `1000` or lies in `3000..=4999`; every other u16
value makes `Close` return `InvalidAccess`.  The hypothesis `hc` restricts
the code to the u16 domain of the Rust argument. -/
theorem C5_close_code_validation (c : Nat) (hc : c < 65536) (ws : WebSocket) :
    ((Close (some c) none ws).result = Except.ok () ↔
      (c = 1000 ∨ (3000 ≤ c ∧ c ≤ 4999))) ∧
    ((Close (some c) none ws).result = Except.error Error.InvalidAccess ↔
      ¬(c = 1000 ∨ (3000 ≤ c ∧ c ≤ 4999))) := by
  by_cases hv : c = 1000 ∨ (3000 ≤ c ∧ c ≤ 4999)
  · have hf : closeCodeRejected (some c) = false :=
      (closeCodeRejected_false_iff c).mpr hv
    rw [Close_ok_of_valid (some c) none ws hf (by simp [closeReasonRejected])]
    exact ⟨iff_of_true rfl hv, iff_of_false (by simp) (not_not_intro hv)⟩
  · have ht : closeCodeRejected (some c) = true :=
      (closeCodeRejected_true_iff c).mpr hv
    have herr : (Close (some c) none ws).result =
        Except.error Error.InvalidAccess := by
      simp [Close, ht]
    rw [herr]
    exact ⟨iff_of_false (by simp) hv, iff_of_true rfl hv⟩

/-- C5 witness: `2999` is rejected with `InvalidAccess` on a fresh
websocket. -/
theorem C5_witness :
    (Close (some 2999) none WebSocket.new_inherited).result =
      Except.error Error.InvalidAccess :=
  (C5_close_code_validation 2999 (by decide) WebSocket.new_inherited).2.mpr
    (by decide)

lemma Close_reason_ok_iff (r : String) (ws : WebSocket) :
    (Close none (some r) ws).result = Except.ok () ↔ r.utf8ByteSize ≤ 123 := by
  by_cases h : 123 < r.utf8ByteSize
  · have hr : closeReasonRejected (some r) = true :=
      (closeReasonRejected_some_iff r).mpr h
    have herr : (Close none (some r) ws).result = Except.error Error.Syntax := by
      simp [Close, closeCodeRejected, hr]
    rw [herr]
    exact iff_of_false (by simp) (by omega)
  · have hr : closeReasonRejected (some r) = false := by
      cases hcr : closeReasonRejected (some r)
      · rfl
      · exact absurd ((closeReasonRejected_some_iff r).mp hcr) h
    rw [Close_ok_of_valid none (some r) ws (by simp [closeCodeRejected]) hr]
    exact iff_of_true rfl (by omega)

lemma Close_reason_err_iff (r : String) (ws : WebSocket) :
    (Close none (some r) ws).result = Except.error Error.Syntax ↔
      123 < r.utf8ByteSize := by
  by_cases h : 123 < r.utf8ByteSize
  · have hr : closeReasonRejected (some r) = true :=
      (closeReasonRejected_some_iff r).mpr h
    have herr : (Close none (some r) ws).result = Except.error Error.Syntax := by
      simp [Close, closeCodeRejected, hr]
    rw [herr]
    exact iff_of_true rfl h
  · rw [(Close_reason_ok_iff r ws).mpr (by omega)]
    exact iff_of_false (by simp) h

lemma utf8ByteSize_replicate_a (n : Nat) :
    (String.mk (List.replicate n 'a')).utf8ByteSize = n := by
  show String.utf8Len (List.replicate n 'a') = n
  induction n with
  | zero => rfl
  | succ k ih =>
    have h1 : 'a'.utf8Size = 1 := rfl
    simp [List.replicate_succ, String.utf8Len_cons, ih, h1]

/-- C6: a supplied close reason passes `Close`'s validation (the call
returns `Ok`) exactly when its UTF-8 byte length is at most 123, and is
rejected with `SyntaxError` exactly when that byte length exceeds 123; in
particular a 123-byte reason succeeds and a 124-byte reason fails. -/
theorem C6_close_reason_validation (r : String) (ws : WebSocket) :
    ((Close none (some r) ws).result = Except.ok () ↔ r.utf8ByteSize ≤ 123) ∧
    ((Close none (some r) ws).result = Except.error Error.Syntax ↔
      123 < r.utf8ByteSize) ∧
    (Close none (some (String.mk (List.replicate 123 'a'))) ws).result =
      Except.ok () ∧
    (Close none (some (String.mk (List.replicate 124 'a'))) ws).result =
      Except.error Error.Syntax :=
  ⟨Close_reason_ok_iff r ws, Close_reason_err_iff r ws,
   (Close_reason_ok_iff _ ws).mpr (by rw [utf8ByteSize_replicate_a]),
   (Close_reason_err_iff _ ws).mpr (by rw [utf8ByteSize_replicate_a]; omega)⟩

/-- C7: `Send` returns `InvalidState` in `Connecting` and mutates nothing;
in `Closing` or `Closed` it returns `Ok` and mutates nothing; it never
mutates the websocket (in particular the sender is unchanged); it hands a
message to the transport only in the `Open` state, where the result is `Ok`;
and its outcome is independent of whether the transmission succeeds. -/
theorem C7_send_state_behavior (txOk : Bool) (data : Option String)
    (ws : WebSocket) :
    (ws.ready_state = WebSocketRequestState.Connecting →
      Send txOk data ws = some (Except.error Error.InvalidState, ws, [])) ∧
    ((ws.ready_state = WebSocketRequestState.Closing ∨
      ws.ready_state = WebSocketRequestState.Closed) →
      Send txOk data ws = some (Except.ok (), ws, [])) ∧
    (∀ res ws2 msgs, Send txOk data ws = some (res, ws2, msgs) →
      ws2 = ws ∧ (msgs ≠ [] →
        ws.ready_state = WebSocketRequestState.Open ∧ res = Except.ok ())) ∧
    Send true data ws = Send false data ws := by
  obtain ⟨st, sd, f, fl, cc, cd, rs⟩ := ws
  cases st <;> cases sd <;> cases data <;>
    refine ⟨?_, ?_, ?_, ?_⟩ <;> simp [Send] <;>
      (intros; subst_vars; simp_all)

/-- C7 witness: a `Send` in the `Connecting` state on a fresh websocket
returns `InvalidState`, leaves the websocket unchanged and sends nothing. -/
theorem C7_witness :
    Send true none WebSocket.new_inherited =
      some (Except.error Error.InvalidState, WebSocket.new_inherited, []) :=
  (C7_send_state_behavior true none WebSocket.new_inherited).1 rfl

/-- C8: when the `CloseTask` runs it sets the state to `Closed`; if
`failed` or `full` was set it clears both flags, sets `clean_close = false`
and fires a non-bubbling cancelable `error` event before the close event;
and in every run the final fired event is a non-bubbling non-cancelable
`close` event carrying the current (post-mutation) `clean_close`, `code`
and `reason`. -/
theorem C8_close_task_events (ws : WebSocket) :
    (CloseTask_handler ws).1.ready_state = WebSocketRequestState.Closed ∧
    ((ws.failed = true ∨ ws.full = true) →
      (CloseTask_handler ws).1.failed = false ∧
      (CloseTask_handler ws).1.full = false ∧
      (CloseTask_handler ws).1.clean_close = false ∧
      (CloseTask_handler ws).2 =
        [FiredEvent.simple "error" false true,
         FiredEvent.closeEvent "close" false false false ws.code ws.reason]) ∧
    ((ws.failed = false ∧ ws.full = false) →
      (CloseTask_handler ws).2 =
        [FiredEvent.closeEvent "close" false false
           ws.clean_close ws.code ws.reason]) ∧
    (∃ pre, (CloseTask_handler ws).2 =
      pre ++ [FiredEvent.closeEvent "close" false false
        (CloseTask_handler ws).1.clean_close
        (CloseTask_handler ws).1.code
        (CloseTask_handler ws).1.reason]) := by
  obtain ⟨st, sd, f, fl, cc, cd, rs⟩ := ws
  cases f <;> cases fl
  · exact ⟨rfl, by simp, fun _ => rfl, ⟨[], rfl⟩⟩
  · exact ⟨rfl, fun _ => ⟨rfl, rfl, rfl, rfl⟩, by simp,
      ⟨[FiredEvent.simple "error" false true], rfl⟩⟩
  · exact ⟨rfl, fun _ => ⟨rfl, rfl, rfl, rfl⟩, by simp,
      ⟨[FiredEvent.simple "error" false true], rfl⟩⟩
  · exact ⟨rfl, fun _ => ⟨rfl, rfl, rfl, rfl⟩, by simp,
      ⟨[FiredEvent.simple "error" false true], rfl⟩⟩

/-- C8 witness: on a websocket with `failed` set, the `CloseTask` clears
the flags, marks the close unclean, and fires the `error` event then the
`close` event. -/
theorem C8_witness :
    (CloseTask_handler { WebSocket.new_inherited with failed := true }).1.failed
      = false ∧
    (CloseTask_handler { WebSocket.new_inherited with failed := true }).1.full
      = false ∧
    (CloseTask_handler
        { WebSocket.new_inherited with failed := true }).1.clean_close
      = false ∧
    (CloseTask_handler { WebSocket.new_inherited with failed := true }).2 =
      [FiredEvent.simple "error" false true,
       FiredEvent.closeEvent "close" false false false 0 ""] :=
  (C8_close_task_events { WebSocket.new_inherited with failed := true }).2.1
    (Or.inl rfl)

/-- C1, what the code actually does at the claim's scenario: a handshake
failure enqueues `CloseTask` on the freshly constructed websocket, whose
`failed` and `full` flags are still `false` (the constructor's failure path
never sets `failed`), so the handler fires no `error` event and exactly one
`close` event whose `wasClean` field is `true` — contradicting the claimed
`error`-then-`close` sequence with `wasClean = false`.  No `open` event is
fired, as the claim states. -/
theorem C1_handshake_failure_events :
    (CloseTask_handler WebSocket.new_inherited).2 =
      [FiredEvent.closeEvent "close" false false true 0 ""] ∧
    (CloseTask_handler WebSocket.new_inherited).1.clean_close = true := by
  decide

lemma step_send (txOk : Bool) (data : Option String) (ws : WebSocket) :
    step ws (Op.send txOk data) = ws := by
  obtain ⟨st, sd, f, fl, cc, cd, rs⟩ := ws
  cases st <;> cases sd <;> cases data <;> rfl

lemma step_closeTask_state (ws : WebSocket) :
    (step ws Op.closeTask).ready_state = WebSocketRequestState.Closed := by
  obtain ⟨st, sd, f, fl, cc, cd, rs⟩ := ws
  cases f <;> cases fl <;> rfl

lemma step_established_state (s : Nat) (ws : WebSocket) :
    (step ws (Op.established s)).ready_state = WebSocketRequestState.Open :=
  rfl

lemma Close_state_monotone (c : Option Nat) (r : Option String)
    (ws : WebSocket) :
    ws.ready_state.toNat ≤ (Close c r ws).ws.ready_state.toNat ∧
    (ws.ready_state = WebSocketRequestState.Closed →
      (Close c r ws).ws.ready_state = WebSocketRequestState.Closed) := by
  by_cases hc : closeCodeRejected c = true
  · rw [(Close_unchanged_of_rejected c r ws (Or.inl hc)).1]
    exact ⟨le_rfl, fun h => h⟩
  · have hcf : closeCodeRejected c = false := by
      cases h : closeCodeRejected c
      · rfl
      · exact absurd h hc
    by_cases hr : closeReasonRejected r = true
    · rw [(Close_unchanged_of_rejected c r ws (Or.inr hr)).1]
      exact ⟨le_rfl, fun h => h⟩
    · have hrf : closeReasonRejected r = false := by
        cases h : closeReasonRejected r
        · rfl
        · exact absurd h hr
      obtain ⟨st, sd, f, fl, cc, cd, rs⟩ := ws
      cases st <;> cases sd <;> cases c <;> cases r <;>
        simp [Close, hcf, hrf, send_close, WebSocketRequestState.toNat]

/-- C2 counterexample: from the initial `Connecting` state, a `Close` call
moves the state to `Closing`, and a subsequently running
`ConnectionEstablishedTask` moves it back to `Open` — a backward transition
(its discriminant decreases from 2 to 1), so the state does not only
progress forward under sequences of the four operations. -/
theorem C2_counterexample :
    (step WebSocket.new_inherited (Op.close none none)).ready_state =
      WebSocketRequestState.Closing ∧
    (step (step WebSocket.new_inherited (Op.close none none))
        (Op.established 0)).ready_state = WebSocketRequestState.Open ∧
    (step (step WebSocket.new_inherited (Op.close none none))
        (Op.established 0)).ready_state.toNat <
      (step WebSocket.new_inherited (Op.close none none)).ready_state.toNat :=
  by decide

/-- C2 amended: `Send`, `Close` and `CloseTask` never move the state
backward along `Connecting < Open < Closing < Closed` (with `Close` able to
take `Connecting` directly to `Closing`, and `CloseTask` able to jump
directly to `Closed`), and none of them leaves `Closed` once entered;
`ConnectionEstablishedTask`, however, unconditionally sets the state to
`Open`, which is a backward transition whenever the state was already
`Closing` or `Closed`. -/
theorem C2_amended_monotonicity (ws : WebSocket) (op : Op) :
    (op.isEstablished = false →
      ws.ready_state.toNat ≤ (step ws op).ready_state.toNat ∧
      (ws.ready_state = WebSocketRequestState.Closed →
        (step ws op).ready_state = WebSocketRequestState.Closed)) ∧
    (op.isEstablished = true →
      (step ws op).ready_state = WebSocketRequestState.Open) := by
  cases op with
  | send txOk data =>
      refine ⟨fun _ => ?_, by simp [Op.isEstablished]⟩
      rw [step_send]
      exact ⟨le_rfl, fun h => h⟩
  | close c r =>
      exact ⟨fun _ => Close_state_monotone c r ws, by simp [Op.isEstablished]⟩
  | established s =>
      exact ⟨by simp [Op.isEstablished], fun _ => step_established_state s ws⟩
  | closeTask =>
      refine ⟨fun _ => ?_, by simp [Op.isEstablished]⟩
      rw [step_closeTask_state]
      refine ⟨?_, fun _ => rfl⟩
      cases h : ws.ready_state <;> simp [WebSocketRequestState.toNat]

/-- C2 witness for the amended claim: the `CloseTask` does not decrease the
state discriminant of a fresh websocket. -/
theorem C2_amended_witness :
    WebSocket.new_inherited.ready_state.toNat ≤
      (step WebSocket.new_inherited Op.closeTask).ready_state.toNat :=
  ((C2_amended_monotonicity WebSocket.new_inherited Op.closeTask).1 rfl).1

lemma closeCodeRejected_elim (c : Option Nat)
    (h : closeCodeRejected c = true) :
    ∃ cv, c = some cv ∧ cv ≠ 1000 ∧ (cv < 3000 ∨ 4999 < cv) := by
  cases c with
  | none => exact absurd h (by simp [closeCodeRejected])
  | some cv =>
    refine ⟨cv, rfl, ?_⟩
    have h2 := (closeCodeRejected_true_iff cv).mp h
    omega

lemma closeReasonRejected_elim (r : Option String)
    (h : closeReasonRejected r = true) :
    ∃ rv, r = some rv ∧ 123 < rv.utf8ByteSize := by
  cases r with
  | none => exact absurd h (by simp [closeReasonRejected])
  | some rv => exact ⟨rv, rfl, (closeReasonRejected_some_iff rv).mp h⟩

/-- C3: whenever `Close` returns an error, it does so before any mutation:
the websocket (state, flags, close code, close reason, sender) is unchanged
and no close frame was sent; moreover the error is `InvalidAccess` exactly
for a supplied out-of-range code (checked first), and `Syntax` for a
supplied over-long reason when the code check passed. -/
theorem C3_close_validation_before_mutation (c : Option Nat)
    (r : Option String) (ws : WebSocket) (e : Error)
    (h : (Close c r ws).result = Except.error e) :
    (Close c r ws).ws = ws ∧ (Close c r ws).sent = [] ∧
    ((e = Error.InvalidAccess ∧
        ∃ cv, c = some cv ∧ cv ≠ 1000 ∧ (cv < 3000 ∨ 4999 < cv)) ∨
     (e = Error.Syntax ∧ closeCodeRejected c = false ∧
        ∃ rv, r = some rv ∧ 123 < rv.utf8ByteSize)) := by
  by_cases hc : closeCodeRejected c = true
  · obtain ⟨hw, hs⟩ := Close_unchanged_of_rejected c r ws (Or.inl hc)
    have herr : (Close c r ws).result = Except.error Error.InvalidAccess := by
      simp [Close, hc]
    rw [herr] at h
    injection h with h2
    exact ⟨hw, hs, Or.inl ⟨h2.symm, closeCodeRejected_elim c hc⟩⟩
  · have hcf : closeCodeRejected c = false := by
      cases hx : closeCodeRejected c
      · rfl
      · exact absurd hx hc
    by_cases hr : closeReasonRejected r = true
    · obtain ⟨hw, hs⟩ := Close_unchanged_of_rejected c r ws (Or.inr hr)
      have herr : (Close c r ws).result = Except.error Error.Syntax := by
        simp [Close, hcf, hr]
      rw [herr] at h
      injection h with h2
      exact ⟨hw, hs, Or.inr ⟨h2.symm, hcf, closeReasonRejected_elim r hr⟩⟩
    · have hrf : closeReasonRejected r = false := by
        cases hx : closeReasonRejected r
        · rfl
        · exact absurd hx hr
      rw [Close_ok_of_valid c r ws hcf hrf] at h
      exact absurd h (by simp)

/-- C3 witness: `Close` with code 2000 fails with `InvalidAccess` on a
fresh websocket, mutating nothing and sending nothing. -/
theorem C3_witness :
    (Close (some 2000) none WebSocket.new_inherited).ws =
        WebSocket.new_inherited ∧
    (Close (some 2000) none WebSocket.new_inherited).sent = [] ∧
    ((Error.InvalidAccess = Error.InvalidAccess ∧
        ∃ cv, (some 2000 : Option Nat) = some cv ∧ cv ≠ 1000 ∧
          (cv < 3000 ∨ 4999 < cv)) ∨
     (Error.InvalidAccess = Error.Syntax ∧
        closeCodeRejected (some 2000) = false ∧
        ∃ rv, (none : Option String) = some rv ∧ 123 < rv.utf8ByteSize)) :=
  C3_close_validation_before_mutation (some 2000) none WebSocket.new_inherited
    Error.InvalidAccess (by decide)

lemma Close_code_reason_unchanged (c : Option Nat) (r : Option String)
    (ws : WebSocket)
    (h : closeStores ws (Op.close c r) = false) :
    (Close c r ws).ws.code = ws.code ∧
    (Close c r ws).ws.reason = ws.reason := by
  by_cases hc : closeCodeRejected c = true
  · rw [(Close_unchanged_of_rejected c r ws (Or.inl hc)).1]
    exact ⟨rfl, rfl⟩
  · have hcf : closeCodeRejected c = false := by
      cases hx : closeCodeRejected c
      · rfl
      · exact absurd hx hc
    by_cases hr : closeReasonRejected r = true
    · rw [(Close_unchanged_of_rejected c r ws (Or.inr hr)).1]
      exact ⟨rfl, rfl⟩
    · have hrf : closeReasonRejected r = false := by
        cases hx : closeReasonRejected r
        · rfl
        · exact absurd hx hr
      obtain ⟨st, sd, f, fl, cc, cd, rs⟩ := ws
      cases st <;> cases sd <;> cases c <;> cases r <;>
        simp_all [Close, send_close, closeStores]

lemma step_code_reason (ws : WebSocket) (op : Op)
    (h : closeStores ws op = false) :
    (step ws op).code = ws.code ∧ (step ws op).reason = ws.reason := by
  cases op with
  | send txOk data =>
      rw [step_send]
      exact ⟨rfl, rfl⟩
  | established s => exact ⟨rfl, rfl⟩
  | closeTask =>
      obtain ⟨st, sd, f, fl, cc, cd, rs⟩ := ws
      cases f <;> cases fl <;> exact ⟨rfl, rfl⟩
  | close c r => exact Close_code_reason_unchanged c r ws h

lemma closeStores_open_of_true (ws : WebSocket) (op : Op)
    (h : closeStores ws op = true) :
    ws.ready_state = WebSocketRequestState.Open ∧
    ∃ c r, op = Op.close c r := by
  cases op with
  | close c r =>
      refine ⟨?_, c, r, rfl⟩
      simp only [closeStores, Bool.and_eq_true, beq_iff_eq] at h
      tauto
  | send txOk data => exact absurd h (by simp [closeStores])
  | established s => exact absurd h (by simp [closeStores])
  | closeTask => exact absurd h (by simp [closeStores])

lemma storeCount_le (ops : List Op) : ∀ ws : WebSocket,
    storeCount ws ops ≤ countEstablished ops +
      (if ws.ready_state = WebSocketRequestState.Open then 1 else 0) := by
  induction ops with
  | nil =>
      intro ws
      simp [storeCount, countEstablished]
  | cons op rest ih =>
    intro ws
    have hcount : countEstablished (op :: rest) =
        countEstablished rest + (if Op.isEstablished op then 1 else 0) := by
      simp only [countEstablished]
      exact List.countP_cons Op.isEstablished op rest
    cases op with
    | send txOk data =>
        have h2 : storeCount ws (Op.send txOk data :: rest) =
            storeCount ws rest := by
          simp [storeCount, closeStores, step_send]
        rw [h2, hcount]
        simpa using ih ws
    | established s =>
        have h3 := ih (step ws (Op.established s))
        have h4 : (if (step ws (Op.established s)).ready_state =
            WebSocketRequestState.Open then 1 else 0) = 1 := by
          rw [step_established_state]
          simp
        rw [h4] at h3
        have h5 : storeCount ws (Op.established s :: rest) =
            storeCount (step ws (Op.established s)) rest := by
          simp [storeCount, closeStores]
        have h6 : countEstablished (Op.established s :: rest) =
            countEstablished rest + 1 := by
          rw [hcount]
          rfl
        rw [h5, h6]
        exact le_trans h3 (Nat.le_add_right _ _)
    | closeTask =>
        have h3 := ih (step ws Op.closeTask)
        have h4 : (if (step ws Op.closeTask).ready_state =
            WebSocketRequestState.Open then 1 else 0) = 0 := by
          rw [step_closeTask_state]
          simp
        rw [h4] at h3
        have h5 : storeCount ws (Op.closeTask :: rest) =
            storeCount (step ws Op.closeTask) rest := by
          simp [storeCount, closeStores]
        have h6 : countEstablished (Op.closeTask :: rest) =
            countEstablished rest + 0 := by
          rw [hcount]
          rfl
        rw [h5, h6]
        exact le_trans (le_trans h3 (by omega)) (Nat.le_add_right _ _)
    | close c r =>
        have h6 : countEstablished (Op.close c r :: rest) =
            countEstablished rest := by
          rw [hcount]
          rfl
        have hsc : storeCount ws (Op.close c r :: rest) =
            (if closeStores ws (Op.close c r) then 1 else 0) +
            storeCount (Close c r ws).ws rest := rfl
        rw [hsc, h6]
        by_cases hs : closeStores ws (Op.close c r) = true
        · obtain ⟨hopen, -⟩ := closeStores_open_of_true ws _ hs
          have hcf : closeCodeRejected c = false := by
            simp only [closeStores, Bool.and_eq_true, Bool.not_eq_true'] at hs
            tauto
          have hrf : closeReasonRejected r = false := by
            simp only [closeStores, Bool.and_eq_true, Bool.not_eq_true'] at hs
            tauto
          have hnot := Close_state_not_open c r ws hcf hrf
          have h3 := ih (Close c r ws).ws
          have h4 : (if (Close c r ws).ws.ready_state =
              WebSocketRequestState.Open then 1 else 0) = 0 := by
            simp [hnot]
          rw [h4] at h3
          have h5 : (if ws.ready_state = WebSocketRequestState.Open
              then 1 else 0) = 1 := by
            simp [hopen]
          rw [hs, h5]
          simp only [if_true]
          omega
        · have hsf : closeStores ws (Op.close c r) = false := by
            cases hx : closeStores ws (Op.close c r)
            · rfl
            · exact absurd hx hs
          rw [hsf]
          simp only [Bool.false_eq_true, if_false, Nat.zero_add]
          by_cases hc : closeCodeRejected c = true
          · rw [(Close_unchanged_of_rejected c r ws (Or.inl hc)).1]
            exact ih ws
          · have hcf : closeCodeRejected c = false := by
              cases hx : closeCodeRejected c
              · rfl
              · exact absurd hx hc
            by_cases hr : closeReasonRejected r = true
            · rw [(Close_unchanged_of_rejected c r ws (Or.inr hr)).1]
              exact ih ws
            · have hrf : closeReasonRejected r = false := by
                cases hx : closeReasonRejected r
                · rfl
                · exact absurd hx hr
              have hnot := Close_state_not_open c r ws hcf hrf
              have h3 := ih (Close c r ws).ws
              have h4 : (if (Close c r ws).ws.ready_state =
                  WebSocketRequestState.Open then 1 else 0) = 0 := by
                simp [hnot]
              rw [h4] at h3
              exact le_trans (le_trans h3 (by omega)) (Nat.le_add_right _ _)

/-- C9: over every trace of operations from the freshly constructed
websocket in which the `ConnectionEstablishedTask` runs at most once (the
worker thread enqueues at most one completion task per connection attempt),
the `Open`-state store of `Close` executes at most once; the `code` and
`reason` fields only ever change at a `Close` operation executed while the
state is `Open`; and a `Close` executed in `Connecting`, `Closing` or
`Closed` leaves both fields untouched (hence at their defaults `0` and
`""` if never stored). -/
theorem C9_close_fields_written_once (ops : List Op)
    (h : countEstablished ops ≤ 1) :
    storeCount WebSocket.new_inherited ops ≤ 1 ∧
    (∀ ws op2, ((step ws op2).code ≠ ws.code ∨
        (step ws op2).reason ≠ ws.reason) →
      ws.ready_state = WebSocketRequestState.Open ∧
      closeStores ws op2 = true ∧ ∃ c r, op2 = Op.close c r) ∧
    (∀ ws c r, ws.ready_state ≠ WebSocketRequestState.Open →
      (Close c r ws).ws.code = ws.code ∧
      (Close c r ws).ws.reason = ws.reason) := by
  refine ⟨?_, ?_, ?_⟩
  · have hb := storeCount_le ops WebSocket.new_inherited
    have hz : (if WebSocket.new_inherited.ready_state =
        WebSocketRequestState.Open then 1 else 0) = 0 := rfl
    rw [hz] at hb
    omega
  · intro ws op2 hch
    by_cases hs : closeStores ws op2 = true
    · obtain ⟨hopen, hcr⟩ := closeStores_open_of_true ws op2 hs
      exact ⟨hopen, hs, hcr⟩
    · have hsf : closeStores ws op2 = false := by
        cases hx : closeStores ws op2
        · rfl
        · exact absurd hx hs
      have hu := step_code_reason ws op2 hsf
      rcases hch with hch | hch
      · exact absurd hu.1 hch
      · exact absurd hu.2 hch
  · intro ws c r hno
    apply Close_code_reason_unchanged
    simp [closeStores, beq_iff_eq, hno]

/-- C9 witness: on a trace with one established task and two close calls,
the close code and reason are stored at most once. -/
theorem C9_witness :
    storeCount WebSocket.new_inherited
      [Op.established 0, Op.close (some 3000) (some "bye"),
       Op.close (some 4000) none] ≤ 1 :=
  (C9_close_fields_written_once _ (by decide)).1

/-- C10: for a `Send` in the `Open` state, the call panics (the Rust code
unwraps a `None`, modelled as the `none` outcome) exactly when the optional
data argument is absent or the sender has not been installed; with both
present it returns normally, so `Send` is total at the public interface
only under that precondition. -/
theorem C10_send_panic_condition (txOk : Bool) (data : Option String)
    (ws : WebSocket) (h : ws.ready_state = WebSocketRequestState.Open) :
    Send txOk data ws = none ↔ (data = none ∨ ws.sender = none) := by
  obtain ⟨st, sd, f, fl, cc, cd, rs⟩ := ws
  cases st <;> cases sd <;> cases data <;> simp_all [Send]

/-- C10 witness: a `Send` with no data argument in the `Open` state
panics. -/
theorem C10_witness :
    Send true none
      { WebSocket.new_inherited with
          ready_state := WebSocketRequestState.Open } = none :=
  (C10_send_panic_condition true none
    { WebSocket.new_inherited with
        ready_state := WebSocketRequestState.Open } rfl).mpr (Or.inl rfl)

end Servo
